import Mathlib

/-! # Odoo-ZIPConverter migration engine: a shallow embedding

This development embeds the migration engine of the Odoo-ZIPConverter
repository (TypeScript) and settles the frozen claims about it.

Embedding conventions:
* Pure data (`src/types.ts`, the migration catalogs) becomes Lean structures
  and literal lists.
* Effectful operations (queries, subprocesses, the filesystem) are modelled by
  explicit environment records describing each operation's outcome; a function
  that can throw returns `Except String` and the JS `try`/`catch`/`finally`
  control flow is translated explicitly.
* JavaScript semantics that differ from the TypeScript surface reading are made
  explicit (`jsTruthy`, `jsStartsWith`).
* Wall-clock durations are modelled as `0`: no claim concerns timing values.
-/

namespace OdooZip

/-- Model of JavaScript `String.prototype.startsWith`, on the character list. -/
def jsStartsWith (s p : String) : Bool := p.data.isPrefixOf s.data

/-- The characters before the first occurrence of the separator. -/
def charsBefore (sep : List Char) : List Char → List Char
  | [] => []
  | c :: rest => if sep.isPrefixOf (c :: rest) then [] else c :: charsBefore sep rest

/-- Model of JavaScript `s.split(sep)[0]`: the text before the first
 occurrence of the separator (the whole string when the separator is absent). -/
def jsSplitHead (s sep : String) : String := String.mk (charsBefore sep.data s.data)

/-- The four pipeline phases that tag a `MigrationError` (src/types.ts). -/
inductive Phase where
  | extraction
  | database
  | migration
  | «export»
deriving DecidableEq, Repr

/-- `MigrationError` of src/types.ts. -/
structure MigrationError where
  phase : Phase
  message : String
  details : Option String := none
  recoverable : Bool
deriving DecidableEq, Repr

/-- `MigrationScript` of src/types.ts: one catalog entry. -/
structure MigrationScript where
  id : String
  name : String
  description : String
  order : Nat
  sql : String
  preCheck : Option String := none
  postCheck : Option String := none
deriving DecidableEq, Repr

/-- `ScriptExecutionResult` of src/database.ts. -/
structure ScriptExecutionResult where
  applied : Bool
  durationMs : Nat
deriving DecidableEq, Repr

/-- `PostMigrationStats` of src/types.ts. -/
structure PostMigrationStats where
  tableCount : Nat
  moduleCount : Nat
  installedModuleCount : Nat
  partnerCount : Nat
  userCount : Nat
deriving DecidableEq, Repr

/-- `PhaseTiming` of src/types.ts. -/
structure PhaseTiming where
  extraction : Nat
  database : Nat
  migration : Nat
  «export» : Nat
deriving DecidableEq, Repr

/-- Status of one script in a `ScriptResult` (src/types.ts). -/
inductive ScriptStatus where
  | applied
  | skipped
  | failed
deriving DecidableEq, Repr

/-- `ScriptResult` of src/types.ts. -/
structure ScriptResult where
  id : String
  name : String
  description : String
  status : ScriptStatus
  durationMs : Nat
  error : Option String := none
deriving DecidableEq, Repr

/-- `MigrationReport` of src/types.ts. -/
structure MigrationReport where
  phaseTimings : PhaseTiming
  scriptResults : List ScriptResult
  stats : PostMigrationStats
  importWarnings : List String
  reportFilePath : Option String := none
deriving DecidableEq, Repr

/-- `MigrationResult` of src/types.ts. -/
structure MigrationResult where
  success : Bool
  sourceVersion : String
  targetVersion : String
  migrationsApplied : List String
  errors : List MigrationError
  warnings : List String
  duration : Nat
  report : Option MigrationReport := none
deriving DecidableEq, Repr

-- ## The migration script catalogs (src/migration/odoo-16-to-17.ts, odoo-17-to-18.ts)

/-- The migration catalog `MIGRATION_SCRIPTS` of `src/migration/odoo-16-to-17.ts`:
 each entry carries the identifier, display name, description, integer
 ordering key and the SQL payloads (main statement, optional pre-check,
 optional post-check) verbatim from the source. -/
def MIGRATION_SCRIPTS : List MigrationScript := [
  { id := "pre-001-backup-check",
    name := "Verify backup integrity",
    description := "Ensure critical tables exist before migration",
    order := 1,
    sql := "
      DO $$
      DECLARE
        missing_tables text[];
        critical_tables text[] := ARRAY[
          'ir_module_module',
          'res_users',
          'res_partner',
          'res_company'
        ];
        tbl text;
      BEGIN
        FOREACH tbl IN ARRAY critical_tables
        LOOP
          IF NOT EXISTS (
            SELECT FROM pg_tables
            WHERE schemaname = 'public' AND tablename = tbl
          ) THEN
            missing_tables := array_append(missing_tables, tbl);
          END IF;
        END LOOP;

        IF array_length(missing_tables, 1) > 0 THEN
          RAISE EXCEPTION 'Missing critical tables: %', missing_tables;
        END IF;
      END $$;
    ",
    preCheck := none,
    postCheck := some "SELECT true as valid" },
  { id := "mod-001-module-dependencies",
    name := "Update module dependency format",
    description := "Odoo 17 changed how module dependencies are stored",
    order := 10,
    sql := "
      -- Add depend_id column if not exists (Odoo 17 uses foreign key)
      DO $$
      BEGIN
        IF NOT EXISTS (
          SELECT FROM information_schema.columns
          WHERE table_name = 'ir_module_module_dependency'
            AND column_name = 'depend_id'
        ) THEN
          ALTER TABLE ir_module_module_dependency
            ADD COLUMN depend_id INTEGER;

          -- Populate depend_id from module name
          UPDATE ir_module_module_dependency d
          SET depend_id = m.id
          FROM ir_module_module m
          WHERE d.name = m.name;
        END IF;
      END $$;
    ",
    preCheck := some "
      SELECT EXISTS (
        SELECT FROM information_schema.columns
        WHERE table_name = 'ir_module_module_dependency'
          AND column_name = 'name'
      ) as result
    ",
    postCheck := none },
  { id := "mod-002-module-state",
    name := "Update module states",
    description := "Add new module states introduced in Odoo 17",
    order := 11,
    sql := "
      -- Update any deprecated states
      UPDATE ir_module_module
      SET state = 'uninstalled'
      WHERE state IN ('uninstallable') AND state != 'uninstalled';

      -- Ensure base module is installed
      UPDATE ir_module_module
      SET state = 'installed'
      WHERE name = 'base' AND state != 'installed';
    ",
    preCheck := none,
    postCheck := none },
  { id := "partner-001-trust-field",
    name := "Add partner trust fields",
    description := "Odoo 17 added trust scoring fields to partners",
    order := 20,
    sql := "
      DO $$
      BEGIN
        -- Add trust field if not exists
        IF NOT EXISTS (
          SELECT FROM information_schema.columns
          WHERE table_name = 'res_partner'
            AND column_name = 'trust'
        ) THEN
          ALTER TABLE res_partner
            ADD COLUMN trust VARCHAR(16) DEFAULT 'normal';
        END IF;

        -- Add partner_latitude/longitude if not exist
        IF NOT EXISTS (
          SELECT FROM information_schema.columns
          WHERE table_name = 'res_partner'
            AND column_name = 'partner_latitude'
        ) THEN
          ALTER TABLE res_partner
            ADD COLUMN partner_latitude DOUBLE PRECISION,
            ADD COLUMN partner_longitude DOUBLE PRECISION;
        END IF;
      END $$;
    ",
    preCheck := none,
    postCheck := none },
  { id := "partner-002-activity-tracking",
    name := "Add activity tracking fields",
    description := "New activity tracking columns in Odoo 17",
    order := 21,
    sql := "
      DO $$
      BEGIN
        IF NOT EXISTS (
          SELECT FROM information_schema.columns
          WHERE table_name = 'res_partner'
            AND column_name = 'activity_date_deadline'
        ) THEN
          ALTER TABLE res_partner
            ADD COLUMN activity_date_deadline DATE,
            ADD COLUMN activity_state VARCHAR(16),
            ADD COLUMN activity_summary TEXT,
            ADD COLUMN activity_type_id INTEGER;
        END IF;
      END $$;
    ",
    preCheck := none,
    postCheck := none },
  { id := "user-001-totp-columns",
    name := "Add TOTP authentication columns",
    description := "Odoo 17 enhanced two-factor authentication",
    order := 30,
    sql := "
      DO $$
      BEGIN
        IF NOT EXISTS (
          SELECT FROM information_schema.columns
          WHERE table_name = 'res_users'
            AND column_name = 'totp_secret'
        ) THEN
          ALTER TABLE res_users
            ADD COLUMN totp_secret VARCHAR(32),
            ADD COLUMN totp_enabled BOOLEAN DEFAULT false;
        END IF;
      END $$;
    ",
    preCheck := none,
    postCheck := none },
  { id := "user-002-api-keys",
    name := "Update API key structure",
    description := "API key table changes in Odoo 17",
    order := 31,
    sql := "
      DO $$
      BEGIN
        -- Add scope column for API key permissions
        IF NOT EXISTS (
          SELECT FROM information_schema.columns
          WHERE table_name = 'res_users_apikeys'
            AND column_name = 'scope'
        ) THEN
          ALTER TABLE res_users_apikeys
            ADD COLUMN scope TEXT;
        END IF;
      END $$;
    ",
    preCheck := some "
      SELECT EXISTS (
        SELECT FROM pg_tables
        WHERE schemaname = 'public' AND tablename = 'res_users_apikeys'
      ) as result
    ",
    postCheck := none },
  { id := "account-001-move-name",
    name := "Update account.move structure",
    description := "Invoice/move changes in Odoo 17",
    order := 40,
    sql := "
      DO $$
      BEGIN
        -- Add quick_edit_mode for faster invoice editing
        IF NOT EXISTS (
          SELECT FROM information_schema.columns
          WHERE table_name = 'account_move'
            AND column_name = 'quick_edit_mode'
        ) THEN
          ALTER TABLE account_move
            ADD COLUMN quick_edit_mode BOOLEAN DEFAULT false;
        END IF;

        -- Add needed_terms for payment terms tracking
        IF NOT EXISTS (
          SELECT FROM information_schema.columns
          WHERE table_name = 'account_move'
            AND column_name = 'needed_terms'
        ) THEN
          ALTER TABLE account_move
            ADD COLUMN needed_terms JSONB;
        END IF;
      END $$;
    ",
    preCheck := some "
      SELECT EXISTS (
        SELECT FROM pg_tables
        WHERE schemaname = 'public' AND tablename = 'account_move'
      ) as result
    ",
    postCheck := none },
  { id := "account-002-payment-state",
    name := "Migrate payment state values",
    description := "Payment state enum changes in Odoo 17",
    order := 41,
    sql := "
      -- Update deprecated payment states
      UPDATE account_move
      SET payment_state = 'not_paid'
      WHERE payment_state IS NULL OR payment_state = '';

      -- Rename 'invoicing_legacy' to appropriate new state
      UPDATE account_move
      SET payment_state = 'not_paid'
      WHERE payment_state = 'invoicing_legacy';
    ",
    preCheck := some "
      SELECT EXISTS (
        SELECT FROM information_schema.columns
        WHERE table_name = 'account_move'
          AND column_name = 'payment_state'
      ) as result
    ",
    postCheck := none },
  { id := "mail-001-message-structure",
    name := "Update mail.message structure",
    description := "Messaging system changes in Odoo 17",
    order := 50,
    sql := "
      DO $$
      BEGIN
        -- Add link_preview_id for URL previews
        IF NOT EXISTS (
          SELECT FROM information_schema.columns
          WHERE table_name = 'mail_message'
            AND column_name = 'link_preview_id'
        ) THEN
          ALTER TABLE mail_message
            ADD COLUMN link_preview_id INTEGER;
        END IF;

        -- Add is_current_user_or_guest_author
        IF NOT EXISTS (
          SELECT FROM information_schema.columns
          WHERE table_name = 'mail_message'
            AND column_name = 'is_current_user_or_guest_author'
        ) THEN
          ALTER TABLE mail_message
            ADD COLUMN is_current_user_or_guest_author BOOLEAN DEFAULT false;
        END IF;
      END $$;
    ",
    preCheck := some "
      SELECT EXISTS (
        SELECT FROM pg_tables
        WHERE schemaname = 'public' AND tablename = 'mail_message'
      ) as result
    ",
    postCheck := none },
  { id := "web-001-asset-bundle",
    name := "Update asset bundle structure",
    description := "Frontend asset changes in Odoo 17",
    order := 60,
    sql := "
      DO $$
      BEGIN
        -- Add target field for asset targeting
        IF NOT EXISTS (
          SELECT FROM information_schema.columns
          WHERE table_name = 'ir_asset'
            AND column_name = 'target'
        ) THEN
          ALTER TABLE ir_asset
            ADD COLUMN target VARCHAR(64);
        END IF;
      END $$;
    ",
    preCheck := some "
      SELECT EXISTS (
        SELECT FROM pg_tables
        WHERE schemaname = 'public' AND tablename = 'ir_asset'
      ) as result
    ",
    postCheck := none },
  { id := "version-001-mark-17",
    name := "Mark database as Odoo 17",
    description := "Update version markers in database",
    order := 100,
    sql := "
      -- Update ir_config_parameter for version
      INSERT INTO ir_config_parameter (key, value, create_uid, create_date, write_uid, write_date)
      VALUES ('database.version', '17.0', 1, NOW(), 1, NOW())
      ON CONFLICT (key) DO UPDATE SET value = '17.0', write_date = NOW();

      -- Mark migration timestamp
      INSERT INTO ir_config_parameter (key, value, create_uid, create_date, write_uid, write_date)
      VALUES ('database.migration_date', NOW()::text, 1, NOW(), 1, NOW())
      ON CONFLICT (key) DO UPDATE SET value = NOW()::text, write_date = NOW();
    ",
    preCheck := none,
    postCheck := none },
  { id := "post-001-recompute-stored",
    name := "Mark stored computed fields for recompute",
    description := "Trigger recomputation of stored computed fields",
    order := 110,
    sql := "
      -- Clear ir_model_fields cache to force recompute on next startup
      UPDATE ir_model_fields
      SET compute = compute
      WHERE store = true AND compute IS NOT NULL;
    ",
    preCheck := none,
    postCheck := none },
  { id := "post-002-clear-caches",
    name := "Clear system caches",
    description := "Clear caches that might hold old data",
    order := 120,
    sql := "
      -- Truncate asset bundles to force regeneration
      DO $$
      BEGIN
        IF EXISTS (
          SELECT FROM pg_tables
          WHERE schemaname = 'public' AND tablename = 'ir_attachment'
        ) THEN
          DELETE FROM ir_attachment
          WHERE res_model = 'ir.ui.view'
            AND name LIKE '%.assets%';
        END IF;
      END $$;

      -- Clear QWeb views cache
      UPDATE ir_ui_view
      SET arch_updated = true
      WHERE type = 'qweb';
    ",
    preCheck := none,
    postCheck := none }
]

/-- `getRequiredTables` of src/migration/odoo-16-to-17.ts. -/
def getRequiredTables : List String :=
  ["ir_module_module", "res_users", "res_partner", "res_company", "ir_config_parameter"]

/-- `SOURCE_VERSION` of src/migration/odoo-16-to-17.ts. -/
def SOURCE_VERSION : String := "16.0"

/-- `TARGET_VERSION` of src/migration/odoo-16-to-17.ts. -/
def TARGET_VERSION : String := "17.0"

/-- The migration catalog `MIGRATION_SCRIPTS_17_18` of `src/migration/odoo-17-to-18.ts`:
 each entry carries the identifier, display name, description, integer
 ordering key and the SQL payloads (main statement, optional pre-check,
 optional post-check) verbatim from the source. -/
def MIGRATION_SCRIPTS_17_18 : List MigrationScript := [
  { id := "pre-001-backup-check-18",
    name := "Verify backup integrity",
    description := "Ensure critical tables exist before migration",
    order := 1,
    sql := "
      DO $$
      DECLARE
        missing_tables text[];
        critical_tables text[] := ARRAY[
          'ir_module_module',
          'res_users',
          'res_partner',
          'res_company'
        ];
        tbl text;
      BEGIN
        FOREACH tbl IN ARRAY critical_tables
        LOOP
          IF NOT EXISTS (
            SELECT FROM pg_tables
            WHERE schemaname = 'public' AND tablename = tbl
          ) THEN
            missing_tables := array_append(missing_tables, tbl);
          END IF;
        END LOOP;

        IF array_length(missing_tables, 1) > 0 THEN
          RAISE EXCEPTION 'Missing critical tables: %', missing_tables;
        END IF;
      END $$;
    ",
    preCheck := none,
    postCheck := some "SELECT true as valid" },
  { id := "pre-002-version-check",
    name := "Verify source version is 17.x",
    description := "Ensure database is Odoo 17 before migrating to 18",
    order := 2,
    sql := "
      DO $$
      DECLARE
        current_version text;
      BEGIN
        SELECT value INTO current_version
        FROM ir_config_parameter
        WHERE key = 'database.version';

        IF current_version IS NULL OR NOT current_version LIKE '17.%' THEN
          RAISE EXCEPTION 'Database version must be 17.x to migrate to 18. Current: %',
            COALESCE(current_version, 'unknown');
        END IF;
      END $$;
    ",
    preCheck := none,
    postCheck := none },
  { id := "mod-001-module-category",
    name := "Update module category structure",
    description := "Odoo 18 reorganized module categories",
    order := 10,
    sql := "
      DO $$
      BEGIN
        -- Add new category fields if not exist
        IF NOT EXISTS (
          SELECT FROM information_schema.columns
          WHERE table_name = 'ir_module_category'
            AND column_name = 'icon'
        ) THEN
          ALTER TABLE ir_module_category
            ADD COLUMN icon VARCHAR(256);
        END IF;
      END $$;
    ",
    preCheck := none,
    postCheck := none },
  { id := "mod-002-module-license",
    name := "Update module license tracking",
    description := "Enhanced license tracking in Odoo 18",
    order := 11,
    sql := "
      DO $$
      BEGIN
        -- Add license_family field
        IF NOT EXISTS (
          SELECT FROM information_schema.columns
          WHERE table_name = 'ir_module_module'
            AND column_name = 'license_family'
        ) THEN
          ALTER TABLE ir_module_module
            ADD COLUMN license_family VARCHAR(64);

          -- Populate based on license
          UPDATE ir_module_module
          SET license_family = CASE
            WHEN license IN ('LGPL-3', 'LGPL-3+') THEN 'lgpl'
            WHEN license IN ('GPL-3', 'GPL-3+', 'AGPL-3') THEN 'gpl'
            WHEN license IN ('OPL-1', 'OEEL-1') THEN 'proprietary'
            ELSE 'other'
          END
          WHERE license IS NOT NULL;
        END IF;
      END $$;
    ",
    preCheck := none,
    postCheck := none },
  { id := "partner-001-avatar-field",
    name := "Add partner avatar fields",
    description := "Odoo 18 enhanced avatar handling",
    order := 20,
    sql := "
      DO $$
      BEGIN
        -- Add avatar_256 for optimized thumbnails
        IF NOT EXISTS (
          SELECT FROM information_schema.columns
          WHERE table_name = 'res_partner'
            AND column_name = 'avatar_256'
        ) THEN
          ALTER TABLE res_partner
            ADD COLUMN avatar_256 BYTEA;
        END IF;

        -- Add contact_address_inline for formatted addresses
        IF NOT EXISTS (
          SELECT FROM information_schema.columns
          WHERE table_name = 'res_partner'
            AND column_name = 'contact_address_inline'
        ) THEN
          ALTER TABLE res_partner
            ADD COLUMN contact_address_inline TEXT;
        END IF;
      END $$;
    ",
    preCheck := none,
    postCheck := none },
  { id := "partner-002-additional-info",
    name := "Add partner additional info fields",
    description := "New partner fields in Odoo 18",
    order := 21,
    sql := "
      DO $$
      BEGIN
        -- Add partner_share for portal access tracking
        IF NOT EXISTS (
          SELECT FROM information_schema.columns
          WHERE table_name = 'res_partner'
            AND column_name = 'partner_share'
        ) THEN
          ALTER TABLE res_partner
            ADD COLUMN partner_share BOOLEAN DEFAULT false;
        END IF;

        -- Add signup_valid for signup status tracking
        IF NOT EXISTS (
          SELECT FROM information_schema.columns
          WHERE table_name = 'res_partner'
            AND column_name = 'signup_valid'
        ) THEN
          ALTER TABLE res_partner
            ADD COLUMN signup_valid BOOLEAN DEFAULT false;
        END IF;
      END $$;
    ",
    preCheck := none,
    postCheck := none },
  { id := "user-001-password-policy",
    name := "Add password policy fields",
    description := "Odoo 18 enhanced password security",
    order := 30,
    sql := "
      DO $$
      BEGIN
        -- Add password_write_date for password age tracking
        IF NOT EXISTS (
          SELECT FROM information_schema.columns
          WHERE table_name = 'res_users'
            AND column_name = 'password_write_date'
        ) THEN
          ALTER TABLE res_users
            ADD COLUMN password_write_date TIMESTAMP;

          -- Initialize with current write_date
          UPDATE res_users
          SET password_write_date = write_date
          WHERE password IS NOT NULL;
        END IF;
      END $$;
    ",
    preCheck := none,
    postCheck := none },
  { id := "user-002-session-management",
    name := "Update session management tables",
    description := "Session tracking improvements in Odoo 18",
    order := 31,
    sql := "
      DO $$
      BEGIN
        -- Add device_id for device tracking
        IF NOT EXISTS (
          SELECT FROM information_schema.columns
          WHERE table_name = 'res_users_log'
            AND column_name = 'device_id'
        ) THEN
          ALTER TABLE res_users_log
            ADD COLUMN device_id VARCHAR(128);
        END IF;

        -- Add ip_address for security auditing
        IF NOT EXISTS (
          SELECT FROM information_schema.columns
          WHERE table_name = 'res_users_log'
            AND column_name = 'ip_address'
        ) THEN
          ALTER TABLE res_users_log
            ADD COLUMN ip_address INET;
        END IF;
      END $$;
    ",
    preCheck := some "
      SELECT EXISTS (
        SELECT FROM pg_tables
        WHERE schemaname = 'public' AND tablename = 'res_users_log'
      ) as result
    ",
    postCheck := none },
  { id := "account-001-tax-changes",
    name := "Update tax structure",
    description := "Tax handling changes in Odoo 18",
    order := 40,
    sql := "
      DO $$
      BEGIN
        -- Add tax repartition improvements
        IF NOT EXISTS (
          SELECT FROM information_schema.columns
          WHERE table_name = 'account_tax'
            AND column_name = 'is_base_affected'
        ) THEN
          ALTER TABLE account_tax
            ADD COLUMN is_base_affected BOOLEAN DEFAULT false;
        END IF;
      END $$;
    ",
    preCheck := some "
      SELECT EXISTS (
        SELECT FROM pg_tables
        WHERE schemaname = 'public' AND tablename = 'account_tax'
      ) as result
    ",
    postCheck := none },
  { id := "account-002-journal-changes",
    name := "Update journal structure",
    description := "Journal improvements in Odoo 18",
    order := 41,
    sql := "
      DO $$
      BEGIN
        -- Add default_account_id for simplified setup
        IF NOT EXISTS (
          SELECT FROM information_schema.columns
          WHERE table_name = 'account_journal'
            AND column_name = 'default_account_id'
        ) THEN
          ALTER TABLE account_journal
            ADD COLUMN default_account_id INTEGER;
        END IF;

        -- Add suspense_account_id
        IF NOT EXISTS (
          SELECT FROM information_schema.columns
          WHERE table_name = 'account_journal'
            AND column_name = 'suspense_account_id'
        ) THEN
          ALTER TABLE account_journal
            ADD COLUMN suspense_account_id INTEGER;
        END IF;
      END $$;
    ",
    preCheck := some "
      SELECT EXISTS (
        SELECT FROM pg_tables
        WHERE schemaname = 'public' AND tablename = 'account_journal'
      ) as result
    ",
    postCheck := none },
  { id := "mail-001-reaction-support",
    name := "Add message reaction support",
    description := "Odoo 18 added emoji reactions to messages",
    order := 50,
    sql := "
      -- Create reactions table if not exists
      CREATE TABLE IF NOT EXISTS mail_message_reaction (
        id SERIAL PRIMARY KEY,
        message_id INTEGER REFERENCES mail_message(id) ON DELETE CASCADE,
        partner_id INTEGER REFERENCES res_partner(id) ON DELETE CASCADE,
        reaction VARCHAR(32) NOT NULL,
        create_date TIMESTAMP DEFAULT NOW(),
        UNIQUE(message_id, partner_id, reaction)
      );

      -- Add index for performance
      CREATE INDEX IF NOT EXISTS mail_message_reaction_message_idx
        ON mail_message_reaction(message_id);
    ",
    preCheck := some "
      SELECT EXISTS (
        SELECT FROM pg_tables
        WHERE schemaname = 'public' AND tablename = 'mail_message'
      ) as result
    ",
    postCheck := none },
  { id := "mail-002-scheduled-messages",
    name := "Add scheduled message support",
    description := "Scheduled message sending in Odoo 18",
    order := 51,
    sql := "
      DO $$
      BEGIN
        -- Add scheduled_date for delayed sending
        IF NOT EXISTS (
          SELECT FROM information_schema.columns
          WHERE table_name = 'mail_message'
            AND column_name = 'scheduled_date'
        ) THEN
          ALTER TABLE mail_message
            ADD COLUMN scheduled_date TIMESTAMP,
            ADD COLUMN is_scheduled BOOLEAN DEFAULT false;
        END IF;
      END $$;
    ",
    preCheck := some "
      SELECT EXISTS (
        SELECT FROM pg_tables
        WHERE schemaname = 'public' AND tablename = 'mail_message'
      ) as result
    ",
    postCheck := none },
  { id := "web-001-theme-variables",
    name := "Update theme variable structure",
    description := "Theme system changes in Odoo 18",
    order := 60,
    sql := "
      DO $$
      BEGIN
        -- Add customize_show for visibility control
        IF NOT EXISTS (
          SELECT FROM information_schema.columns
          WHERE table_name = 'ir_ui_view'
            AND column_name = 'customize_show'
        ) THEN
          ALTER TABLE ir_ui_view
            ADD COLUMN customize_show BOOLEAN DEFAULT true;
        END IF;
      END $$;
    ",
    preCheck := some "
      SELECT EXISTS (
        SELECT FROM pg_tables
        WHERE schemaname = 'public' AND tablename = 'ir_ui_view'
      ) as result
    ",
    postCheck := none },
  { id := "new-001-knowledge-base",
    name := "Prepare for Knowledge module",
    description := "Add fields for Odoo 18 Knowledge integration",
    order := 70,
    sql := "
      DO $$
      BEGIN
        -- Add knowledge_article_id to res.partner for linking
        IF NOT EXISTS (
          SELECT FROM information_schema.columns
          WHERE table_name = 'res_partner'
            AND column_name = 'knowledge_article_ids'
        ) THEN
          ALTER TABLE res_partner
            ADD COLUMN knowledge_article_ids INTEGER[];
        END IF;
      END $$;
    ",
    preCheck := none,
    postCheck := none },
  { id := "version-001-mark-18",
    name := "Mark database as Odoo 18",
    description := "Update version markers in database",
    order := 100,
    sql := "
      -- Update ir_config_parameter for version
      INSERT INTO ir_config_parameter (key, value, create_uid, create_date, write_uid, write_date)
      VALUES ('database.version', '18.0', 1, NOW(), 1, NOW())
      ON CONFLICT (key) DO UPDATE SET value = '18.0', write_date = NOW();

      -- Mark migration timestamp
      INSERT INTO ir_config_parameter (key, value, create_uid, create_date, write_uid, write_date)
      VALUES ('database.migration_date', NOW()::text, 1, NOW(), 1, NOW())
      ON CONFLICT (key) DO UPDATE SET value = NOW()::text, write_date = NOW();

      -- Mark previous version
      INSERT INTO ir_config_parameter (key, value, create_uid, create_date, write_uid, write_date)
      VALUES ('database.previous_version', '17.0', 1, NOW(), 1, NOW())
      ON CONFLICT (key) DO UPDATE SET value = '17.0', write_date = NOW();
    ",
    preCheck := none,
    postCheck := none },
  { id := "post-001-recompute-stored",
    name := "Mark stored computed fields for recompute",
    description := "Trigger recomputation of stored computed fields",
    order := 110,
    sql := "
      -- Clear ir_model_fields cache to force recompute on next startup
      UPDATE ir_model_fields
      SET compute = compute
      WHERE store = true AND compute IS NOT NULL;
    ",
    preCheck := none,
    postCheck := none },
  { id := "post-002-clear-caches",
    name := "Clear system caches",
    description := "Clear caches that might hold old data",
    order := 120,
    sql := "
      -- Truncate asset bundles to force regeneration
      DO $$
      BEGIN
        IF EXISTS (
          SELECT FROM pg_tables
          WHERE schemaname = 'public' AND tablename = 'ir_attachment'
        ) THEN
          DELETE FROM ir_attachment
          WHERE res_model = 'ir.ui.view'
            AND name LIKE '%.assets%';
        END IF;
      END $$;

      -- Clear QWeb views cache
      UPDATE ir_ui_view
      SET arch_updated = true
      WHERE type = 'qweb';
    ",
    preCheck := none,
    postCheck := none }
]

/-- `getRequiredTables17to18` of src/migration/odoo-17-to-18.ts. -/
def getRequiredTables17to18 : List String :=
  ["ir_module_module", "res_users", "res_partner", "res_company", "ir_config_parameter"]

/-- `SOURCE_VERSION_17` of src/migration/odoo-17-to-18.ts. -/
def SOURCE_VERSION_17 : String := "17.0"

/-- `TARGET_VERSION_18` of src/migration/odoo-17-to-18.ts. -/
def TARGET_VERSION_18 : String := "18.0"

/-- The comparator `(a, b) => a.order - b.order` used by both catalogs: order
 keys compared as integers. -/
def byOrder (a b : MigrationScript) : Prop := a.order ≤ b.order

instance : DecidableRel byOrder := fun a b => Nat.decLe a.order b.order

/-- `getMigrationScripts` of src/migration/odoo-16-to-17.ts:
 `[...MIGRATION_SCRIPTS].sort((a, b) => a.order - b.order)`.
 `Array.prototype.sort` is guaranteed stable (ES2019), so it is modelled by a
 stable insertion sort on the order key. -/
def getMigrationScripts : List MigrationScript :=
  MIGRATION_SCRIPTS.insertionSort byOrder

/-- `getMigrationScripts17to18` of src/migration/odoo-17-to-18.ts. -/
def getMigrationScripts17to18 : List MigrationScript :=
  MIGRATION_SCRIPTS_17_18.insertionSort byOrder

instance : IsTotal MigrationScript byOrder :=
  ⟨fun a b => Nat.le_total a.order b.order⟩

instance : IsTrans MigrationScript byOrder :=
  ⟨fun _ _ _ h1 h2 => Nat.le_trans h1 h2⟩


-- ## Script execution (src/database.ts) and the orchestrator (src/migration/index.ts)

/-- Transaction-level events of one `executeMigrationScript` call. -/
inductive DbEvent where
  | beginTx (id : String)
  | preCheckQuery (id : String)
  | execSql (id : String)
  | postCheckQuery (id : String)
  | commitTx (id : String)
  | rollbackTx (id : String)
deriving DecidableEq, Repr

/-- Outcomes of the three queries one script can issue. `preCheckRow` and
 `postCheckRow` are `rows[0]?.result` / `rows[0]?.valid`; `none` models a
 missing row, which the source defaults to `true` via `?? true`. -/
structure ScriptEnv where
  preCheckRow : Option Bool := none
  sqlOk : Bool := true
  postCheckRow : Option Bool := none

/-- `executeMigrationScript` of src/database.ts: BEGIN; optional pre-check
 (skip with ROLLBACK when false); the main statement; optional post-check
 (throw when false); COMMIT. Any failure rolls back and rethrows. Returns the
 `ScriptExecutionResult` object together with the transaction event trace. -/
def executeMigrationScript (se : ScriptEnv) (script : MigrationScript) :
    Except String ScriptExecutionResult × List DbEvent :=
  let mainPart := fun (ev : List DbEvent) =>
    if !se.sqlOk then
      (Except.error ("Script execution failed: " ++ script.id),
       ev ++ [DbEvent.execSql script.id, DbEvent.rollbackTx script.id])
    else
      let ev := ev ++ [DbEvent.execSql script.id]
      match script.postCheck with
      | some _ =>
        let ev := ev ++ [DbEvent.postCheckQuery script.id]
        let valid := se.postCheckRow.getD true
        if !valid then
          (Except.error ("Post-check failed for script: " ++ script.id),
           ev ++ [DbEvent.rollbackTx script.id])
        else
          (Except.ok { applied := true, durationMs := 0 },
           ev ++ [DbEvent.commitTx script.id])
      | none =>
        (Except.ok { applied := true, durationMs := 0 },
         ev ++ [DbEvent.commitTx script.id])
  let ev0 := [DbEvent.beginTx script.id]
  match script.preCheck with
  | some _ =>
    let ev1 := ev0 ++ [DbEvent.preCheckQuery script.id]
    let shouldRun := se.preCheckRow.getD true
    if !shouldRun then
      (Except.ok { applied := false, durationMs := 0 },
       ev1 ++ [DbEvent.rollbackTx script.id])
    else
      mainPart ev1
  | none => mainPart ev0

/-- The two supported migration paths (the source strings are
 `16-to-17` and `17-to-18`). -/
inductive MigrationPath where
  | p16to17
  | p17to18
deriving DecidableEq, Repr

/-- `MigrationPathConfig` of src/migration/index.ts; `scripts` is the result
 of the config's `getScripts()` and `requiredTables` of `getRequiredTables()`. -/
structure MigrationPathConfig where
  sourceVersion : String
  targetVersion : String
  scripts : List MigrationScript
  requiredTables : List String

/-- `MIGRATION_PATHS` of src/migration/index.ts. -/
def MIGRATION_PATHS : MigrationPath → MigrationPathConfig
  | .p16to17 =>
    { sourceVersion := SOURCE_VERSION, targetVersion := TARGET_VERSION,
      scripts := getMigrationScripts, requiredTables := getRequiredTables }
  | .p17to18 =>
    { sourceVersion := SOURCE_VERSION_17, targetVersion := TARGET_VERSION_18,
      scripts := getMigrationScripts17to18, requiredTables := getRequiredTables17to18 }

/-- Return type of `getMigrationPathInfo` of src/migration/index.ts. -/
structure PathInfo where
  source : String
  target : String
  scriptCount : Nat
deriving DecidableEq, Repr

/-- `getMigrationPathInfo` of src/migration/index.ts. -/
def getMigrationPathInfo (path : MigrationPath) : PathInfo :=
  let config := MIGRATION_PATHS path
  { source := config.sourceVersion, target := config.targetVersion,
    scriptCount := config.scripts.length }

/-- The orchestrator's view of the loaded database: one field per query the
 orchestrator can issue, giving that query's outcome. -/
structure DbEnv where
  /-- tables present in the database (consulted by `tableExists`) -/
  tables : List String := []
  /-- the version-marker SELECT succeeds -/
  markerQueryOk : Bool := true
  /-- the value of the `database.version` row, when present -/
  marker : Option String := none
  /-- the pending-module-count SELECT succeeds -/
  pendingQueryOk : Bool := true
  /-- modules in state to upgrade / to install / to remove -/
  pendingCount : Nat := 0
  /-- per-script query outcomes, by script id -/
  scriptEnv : String → ScriptEnv := fun _ => {}
  /-- the post-validation version-marker SELECT succeeds -/
  postMarkerQueryOk : Bool := true
  /-- the marker value seen by post-validation -/
  postMarker : Option String := none
  /-- message of the post-validation marker query error, if it failed -/
  postMarkerErr : String := ""
  /-- the orphaned-foreign-key SELECT succeeds -/
  fkQueryOk : Bool := true
  /-- orphaned `res_users.partner_id` references found -/
  fkOrphans : Nat := 0

/-- `tableExists` of src/database.ts, against the modelled table list. -/
def tableExists (db : DbEnv) (tableName : String) : Bool :=
  db.tables.contains tableName

/-- `detectMigrationPath` of src/migration/index.ts: read the version marker
 row; `16.`-prefixed values map to the 16-to-17 path, `17.`-prefixed values to
 17-to-18; `null` when the row is absent, the query fails (the catch swallows
 the error), or the prefix is unrecognized. -/
def detectMigrationPath (db : DbEnv) : Option MigrationPath :=
  if !db.markerQueryOk then none
  else
    match db.marker with
    | some currentVersion =>
      if jsStartsWith currentVersion "16." then some MigrationPath.p16to17
      else if jsStartsWith currentVersion "17." then some MigrationPath.p17to18
      else none
    | none => none

/-- `validatePreMigration` of src/migration/index.ts, returning the errors and
 warnings it pushes onto the result. One error is pushed per missing required
 table. The version check sits inside a `try` whose `catch` only logs, so both
 a failing marker query and the deliberately thrown version-mismatch `Error`
 are swallowed there: neither adds an error or a warning. -/
def validatePreMigration (db : DbEnv) (config : MigrationPathConfig) :
    List MigrationError × List String :=
  let missing := config.requiredTables.filter (fun t => !(tableExists db t))
  let errors := missing.map (fun t =>
    { phase := Phase.migration, message := "Required table missing: " ++ t,
      recoverable := false : MigrationError })
  let versionWarnings :=
    if !db.markerQueryOk then []
    else
      match db.marker with
      | some currentVersion =>
        let expectedPref := jsSplitHead config.sourceVersion "." ++ "."
        if !(jsStartsWith currentVersion expectedPref) then
          -- the thrown mismatch Error lands in this function's own catch,
          -- which only calls logger.warn: nothing is recorded, the run goes on
          []
        else []
      | none => ["No version marker found in database"]
  let pendingWarnings :=
    if db.pendingQueryOk && db.pendingCount > 0 then
      [toString db.pendingCount ++ " modules have pending state changes. " ++
       "Run Odoo to complete module operations before migration."]
    else []
  (errors, versionWarnings ++ pendingWarnings)

/-- `validatePostMigration` of src/migration/index.ts: only warnings, never
 errors. -/
def validatePostMigration (db : DbEnv) (config : MigrationPathConfig) :
    List String :=
  let markerWarnings :=
    if !db.postMarkerQueryOk then
      ["Could not verify version marker: " ++ db.postMarkerErr]
    else
      match db.postMarker with
      | some newVersion =>
        if newVersion != config.targetVersion then
          ["Version marker is " ++ newVersion ++ ", expected " ++ config.targetVersion]
        else []
      | none => []
  let fkWarnings :=
    if db.fkQueryOk && db.fkOrphans > 0 then
      [toString db.fkOrphans ++ " users have orphaned partner references"]
    else []
  markerWarnings ++ fkWarnings

/-- JavaScript truthiness of the value `runMigration` tests with
 `if (applied)`: `applied` is the whole `ScriptExecutionResult` object returned
 by `executeMigrationScript`, and every object is truthy in JavaScript, so the
 test never consults the object's `applied` field. -/
def jsTruthy (_result : ScriptExecutionResult) : Bool := true

/-- The script loop of `runMigration`: returns the ids recorded as applied,
 the skip warnings recorded, the fatal error (if a script threw, which aborts
 the loop), and the transaction event trace. -/
def runScripts (se : String → ScriptEnv) :
    List MigrationScript → List String × List String × Option MigrationError × List DbEvent
  | [] => ([], [], none, [])
  | script :: rest =>
    match executeMigrationScript (se script.id) script with
    | (Except.ok applied, ev) =>
      if jsTruthy applied then
        let (ids, ws, fatal, evs) := runScripts se rest
        (script.id :: ids, ws, fatal, ev ++ evs)
      else
        let (ids, ws, fatal, evs) := runScripts se rest
        (ids, ("Skipped: " ++ script.id ++ " (pre-check false)") :: ws, fatal, ev ++ evs)
    | (Except.error msg, ev) =>
      ([], [],
       some { phase := Phase.migration,
              message := "Script " ++ script.id ++ " failed: " ++ msg,
              details := some script.name, recoverable := false },
       ev)

/-- `runMigration` of src/migration/index.ts, together with the transaction
 event trace of the executed scripts. -/
def runMigration (db : DbEnv) (migrationPath : Option MigrationPath) :
    MigrationResult × List DbEvent :=
  let detected := match migrationPath with
    | some p => some p
    | none => detectMigrationPath db
  match detected with
  | none =>
    ({ success := false, sourceVersion := "unknown", targetVersion := "unknown",
       migrationsApplied := [],
       errors := [{ phase := Phase.migration,
                    message := "Could not detect database version. Please specify migration path.",
                    recoverable := false }],
       warnings := [], duration := 0 }, [])
  | some path =>
    let config := MIGRATION_PATHS path
    let (valErrors, valWarnings) := validatePreMigration db config
    if !valErrors.isEmpty then
      ({ success := false, sourceVersion := config.sourceVersion,
         targetVersion := config.targetVersion, migrationsApplied := [],
         errors := valErrors, warnings := valWarnings, duration := 0 }, [])
    else
      let (ids, skipWs, fatal, evs) := runScripts db.scriptEnv config.scripts
      match fatal with
      | some e =>
        ({ success := false, sourceVersion := config.sourceVersion,
           targetVersion := config.targetVersion, migrationsApplied := ids,
           errors := valErrors ++ [e], warnings := valWarnings ++ skipWs,
           duration := 0 }, evs)
      | none =>
        let postWs := validatePostMigration db config
        let errors := valErrors
        ({ success := errors.isEmpty, sourceVersion := config.sourceVersion,
           targetVersion := config.targetVersion, migrationsApplied := ids,
           errors := errors, warnings := valWarnings ++ skipWs ++ postWs,
           duration := 0 }, evs)

/-- The script ids in the order their transactions were opened, read off an
 event trace. -/
def beginsOf (evs : List DbEvent) : List String :=
  evs.filterMap fun e =>
    match e with
    | DbEvent.beginTx i => some i
    | _ => none

-- ## Manifest handling (src/extractor.ts) and the embedded server (src/embedded-pg.ts)

/-- `OdooManifest` of src/types.ts. `modules` is kept opaque as a key/value
 list; `timestamp` is optional. -/
structure OdooManifest where
  db_name : String
  version : String
  modules : Option (List (String × String)) := none
  timestamp : Option String := none
deriving DecidableEq, Repr

/-- A `Partial OdooManifest` patch: a field that is `none` is absent from the
 patch and does not override the manifest under JS object spread. -/
structure ManifestPatch where
  db_name : Option String := none
  version : Option String := none
  modules : Option (List (String × String)) := none
  timestamp : Option String := none
deriving DecidableEq, Repr

/-- `updateManifest` of src/extractor.ts: the stored manifest spread-merged
 with the patch (patch fields override), after which the `timestamp` field is
 unconditionally set to the current time `now`. -/
def updateManifest (manifest : OdooManifest) (updates : ManifestPatch)
    (now : String) : OdooManifest :=
  { db_name := updates.db_name.getD manifest.db_name
    version := updates.version.getD manifest.version
    modules := match updates.modules with
      | some m => some m
      | none => manifest.modules
    timestamp := some now }

/-- The two mutable lifecycle flags of an `EmbeddedPostgres` instance
 (src/embedded-pg.ts): `initialized` and `running`. -/
structure PgState where
  initialized : Bool
  running : Bool
deriving DecidableEq, Repr

/-- Outcomes of the external commands issued by `EmbeddedPostgres.start`. -/
structure StartEnv where
  /-- `pg_ctl start` exits with code 0 -/
  pgCtlStartOk : Bool := true
  /-- the readiness poll sees the port accept a connection in time -/
  readyOk : Bool := true

/-- Outcomes of the external commands issued by `EmbeddedPostgres.stop`. -/
structure StopEnv where
  /-- `pg_ctl stop -m fast` exits with code 0 -/
  fastStopOk : Bool := true
  /-- `pg_ctl stop -m immediate` exits with code 0 -/
  immediateStopOk : Bool := true

/-- `EmbeddedPostgres.start` of src/embedded-pg.ts: a no-op on a running
 instance; throws on an uninitialized instance; otherwise launches `pg_ctl
 start`, waits for readiness and sets `running`. Nothing in the guard clauses
 distinguishes a freshly initialized instance from one that was stopped. -/
def EmbeddedPostgres.start (env : StartEnv) (s : PgState) : Except String PgState :=
  if s.running then Except.ok s
  else if !s.initialized then
    Except.error "PostgreSQL not initialized. Call init() first."
  else if !env.pgCtlStartOk then
    Except.error "pg_ctl start exited with a non-zero code"
  else if !env.readyOk then
    Except.error "PostgreSQL did not become ready within 10000ms"
  else Except.ok { s with running := true }

/-- `EmbeddedPostgres.stop` of src/embedded-pg.ts: a no-op when not running;
 otherwise tries a fast shutdown, falls back to an immediate one, logs (never
 throws) when both fail, and clears `running` in every branch. -/
def EmbeddedPostgres.stop (_env : StopEnv) (s : PgState) : PgState :=
  if !s.running then s
  else { s with running := false }

/-- `EmbeddedPostgres.isRunning` of src/embedded-pg.ts. -/
def EmbeddedPostgres.isRunning (s : PgState) : Bool := s.running

-- ## The pipeline coordinator (src/index.ts)

/-- Resource events of one `migrate` run, used to state the teardown claims. -/
inductive Event where
  /-- `createTempDirectory` returned (the scratch directory now exists) -/
  | tempDirCreated
  /-- `createTempDatabase` returned (`dbContext.created` is true) -/
  | dbCreated
  /-- `createPool` returned -/
  | poolCreated
  /-- the pre-export `pool.end()` succeeded and `pool` was set to `null` -/
  | poolEndBodyOk
  /-- the `finally` cleanup region was entered -/
  | cleanupEnter
  /-- the cleanup region attempted `pool.end()` -/
  | poolEndCleanup
  /-- the cleanup region invoked `dropTempDatabase` -/
  | dropDb
  /-- the cleanup region invoked `cleanupTempDirectory` -/
  | removeTempDir
deriving DecidableEq, Repr

/-- The fields of `MigrationConfig` (src/types.ts) that steer control flow. -/
structure MigrationConfig where
  inputPath : String := ""
  outputPath : String := ""
  migrationPath : Option MigrationPath := none
  keepTemp : Bool := false
deriving DecidableEq, Repr

/-- Outcome of every effectful operation one `migrate` run can perform. The
 last three fields belong to the teardown region; their failures are caught
 and logged inside the cleanup helpers and can never influence the result. -/
structure PipelineEnv where
  /-- `createTempDirectory` succeeds -/
  createTempDirOk : Bool := true
  /-- `extractBackup` succeeds (archive valid, manifest parsed) -/
  extractOk : Bool := true
  /-- the parsed manifest on successful extraction -/
  manifest : OdooManifest := { db_name := "", version := "" }
  /-- `createTempDatabase` succeeds -/
  createDbOk : Bool := true
  /-- `verifyConnection` returns true -/
  verifyConnOk : Bool := true
  /-- `loadDumpFile` (psql plus import verification) succeeds -/
  loadDumpOk : Bool := true
  /-- the loaded database as seen by the orchestrator -/
  db : DbEnv := {}
  /-- the statistics `collectPostMigrationStats` returns -/
  stats : PostMigrationStats :=
    { tableCount := 0, moduleCount := 0, installedModuleCount := 0, partnerCount := 0, userCount := 0 }
  /-- the pre-export `pool.end()` succeeds -/
  poolEndPhase4Ok : Bool := true
  /-- `exportDatabase` (pg_dump) succeeds -/
  exportOk : Bool := true
  /-- `updateManifest` rewrites manifest.json successfully -/
  updateManifestOk : Bool := true
  /-- `packBackup` writes the output ZIP successfully -/
  packOk : Bool := true
  /-- writing the side text report succeeds (failure only warns) -/
  reportWriteOk : Bool := true
  /-- the clock value used as the manifest timestamp -/
  now : String := ""
  /-- teardown: the cleanup region's `pool.end()` succeeds -/
  poolEndCleanupOk : Bool := true
  /-- teardown: `dropTempDatabase` succeeds -/
  dropDbOk : Bool := true
  /-- teardown: `cleanupTempDirectory` succeeds -/
  removeTempDirOk : Bool := true

/-- The resources still held when control reaches the `finally` region. -/
structure TeardownState where
  poolOpen : Bool
  dbCreated : Bool
  tempDirCreated : Bool
deriving DecidableEq, Repr

/-- ASCII lower-casing of one character (the report-path suffix test). -/
def asciiLower (c : Char) : Char :=
  if 'A' ≤ c ∧ c ≤ 'Z' then Char.ofNat (c.toNat + 32) else c

/-- The report path: `outputPath.replace(zip-suffix-regex, '-report.txt')`,
 the `.zip` suffix matched case-insensitively. -/
def reportPathOf (outputPath : String) : String :=
  let chars := outputPath.data
  let suffix := (chars.drop (chars.length - 4)).map asciiLower
  if suffix = ".zip".data then
    String.mk (chars.take (chars.length - 4)) ++ "-report.txt"
  else outputPath

/-- The path-selection logic at the top of `migrate`: an explicitly
 configured path is used as-is, otherwise the manifest version's prefix picks
 one, and an unsupported prefix throws. -/
def resolveMigrationPath (cfg : MigrationConfig) (sourceVersion : String) :
    Except String MigrationPath :=
  match cfg.migrationPath with
  | some p => Except.ok p
  | none =>
    if jsStartsWith sourceVersion "16." then Except.ok MigrationPath.p16to17
    else if jsStartsWith sourceVersion "17." then Except.ok MigrationPath.p17to18
    else Except.error ("Unsupported Odoo version: " ++ sourceVersion ++
      ". Only Odoo 16.x and 17.x backups are supported.")

/-- The report assembly at the end of a successful `migrate` run: reuse the
 orchestrator's report when present (the current orchestrator never sets one),
 else build a fresh one; phase timings are modelled as zero. -/
def buildReport (migrationResult : MigrationResult) (stats : PostMigrationStats) :
    MigrationReport :=
  match migrationResult.report with
  | some r =>
    { r with
      phaseTimings := { extraction := 0, database := 0, migration := 0, «export» := 0 },
      stats := stats }
  | none =>
    { phaseTimings := { extraction := 0, database := 0, migration := 0, «export» := 0 },
      scriptResults := [], stats := stats, importWarnings := [] }

/-- The successful return value of `migrate`: the orchestrator result with the
 total duration and the assembled report; when the side text report was
 written, its path is recorded (a write failure only logs a warning). -/
def buildSuccessResult (cfg : MigrationConfig) (env : PipelineEnv)
    (migrationResult : MigrationResult) : MigrationResult :=
  let report := buildReport migrationResult env.stats
  let report :=
    if env.reportWriteOk then
      { report with reportFilePath := some (reportPathOf cfg.outputPath) }
    else report
  { migrationResult with duration := 0, report := some report }

/-- The `try` block of `migrate` (src/index.ts): the four phases in order,
 every throw routed to the value-level `Except.error`. Returns the body's
 outcome, the resources held at exit, the resource events emitted, and the
 manifest as last written to disk (when `updateManifest` ran). -/
def migrateBody (cfg : MigrationConfig) (env : PipelineEnv) :
    Except String MigrationResult × TeardownState × List Event × Option OdooManifest :=
  if !env.createTempDirOk then
    (Except.error "Failed to create temp directory",
     { poolOpen := false, dbCreated := false, tempDirCreated := false }, [], none)
  else
    let tr := [Event.tempDirCreated]
    if !env.extractOk then
      (Except.error "Invalid backup ZIP",
       { poolOpen := false, dbCreated := false, tempDirCreated := true }, tr, none)
    else
      let sourceVersion := env.manifest.version
      match resolveMigrationPath cfg sourceVersion with
      | Except.error msg =>
        (Except.error msg,
         { poolOpen := false, dbCreated := false, tempDirCreated := true }, tr, none)
      | Except.ok migrationPath =>
        let pathInfo := getMigrationPathInfo migrationPath
        let expectedPref := jsSplitHead pathInfo.source "." ++ "."
        if !(jsStartsWith sourceVersion expectedPref) then
          (Except.error ("Version mismatch: backup is Odoo " ++ sourceVersion ++
             " but migration path expects Odoo " ++ pathInfo.source ++
             ". Please select the correct migration path for your backup."),
           { poolOpen := false, dbCreated := false, tempDirCreated := true }, tr, none)
        else if !env.createDbOk then
          (Except.error "Failed to create database",
           { poolOpen := false, dbCreated := false, tempDirCreated := true }, tr, none)
        else
          let tr := tr ++ [Event.dbCreated, Event.poolCreated]
          if !env.verifyConnOk then
            (Except.error "Failed to connect to temporary database",
             { poolOpen := true, dbCreated := true, tempDirCreated := true }, tr, none)
          else if !env.loadDumpOk then
            (Except.error "psql failed to load the dump",
             { poolOpen := true, dbCreated := true, tempDirCreated := true }, tr, none)
          else
            let (migrationResult, _dbEvents) := runMigration env.db (some migrationPath)
            if !migrationResult.success then
              -- `return migrationResult`: the failed orchestrator result is
              -- returned as-is (the `finally` region still runs)
              (Except.ok migrationResult,
               { poolOpen := true, dbCreated := true, tempDirCreated := true }, tr, none)
            else if !env.poolEndPhase4Ok then
              (Except.error "Failed to close pool",
               { poolOpen := true, dbCreated := true, tempDirCreated := true }, tr, none)
            else
              let tr := tr ++ [Event.poolEndBodyOk]
              if !env.exportOk then
                (Except.error "pg_dump failed",
                 { poolOpen := false, dbCreated := true, tempDirCreated := true }, tr, none)
              else if !env.updateManifestOk then
                (Except.error "Failed to write manifest",
                 { poolOpen := false, dbCreated := true, tempDirCreated := true }, tr, none)
              else
                let originalDbName := env.manifest.db_name
                let newManifest := updateManifest env.manifest
                  { db_name := some originalDbName, version := some pathInfo.target } env.now
                if !env.packOk then
                  (Except.error "Failed to create output ZIP",
                   { poolOpen := false, dbCreated := true, tempDirCreated := true },
                   tr, some newManifest)
                else
                  (Except.ok (buildSuccessResult cfg env migrationResult),
                   { poolOpen := false, dbCreated := true, tempDirCreated := true },
                   tr, some newManifest)

/-- The `finally` region of `migrate`: close the pool if still open, drop the
 temporary database if it was created, remove the scratch directory unless
 `keepTemp`. Each helper catches its own failure and logs a warning; nothing
 here can throw or alter the result. -/
def runCleanup (cfg : MigrationConfig) (env : PipelineEnv) (st : TeardownState) :
    List Event × List String :=
  let poolPart : List Event × List String :=
    if st.poolOpen then
      ([Event.poolEndCleanup], if env.poolEndCleanupOk then [] else ["Failed to close pool"])
    else ([], [])
  let dropPart : List Event × List String :=
    if st.dbCreated then
      ([Event.dropDb], if env.dropDbOk then [] else ["Failed to drop temp database"])
    else ([], [])
  let rmPart : List Event × List String :=
    if st.tempDirCreated && !cfg.keepTemp then
      ([Event.removeTempDir],
       if env.removeTempDirOk then [] else ["Failed to clean up temp directory"])
    else ([], [])
  ([Event.cleanupEnter] ++ poolPart.1 ++ dropPart.1 ++ rmPart.1,
   poolPart.2 ++ dropPart.2 ++ rmPart.2)

/-- Everything one `migrate` call produces: the structured result, the full
 resource event trace (body then cleanup), the manifest as last written, and
 the warnings the cleanup region logged. -/
structure MigrateOutcome where
  result : MigrationResult
  trace : List Event
  finalManifest : Option OdooManifest
  cleanupLogs : List String

/-- `migrate` of src/index.ts: run the body; a thrown error becomes the
 structured failure result built in the `catch` block (always tagged with
 phase `migration`); the `finally` region then runs exactly once. -/
def migrate (cfg : MigrationConfig) (env : PipelineEnv) : MigrateOutcome :=
  let (body, st, tr, fm) := migrateBody cfg env
  let result := match body with
    | Except.ok r => r
    | Except.error msg =>
      let errorPathInfo : PathInfo := match cfg.migrationPath with
        | some p => getMigrationPathInfo p
        | none => { source := "16.0", target := "17.0", scriptCount := 0 }
      { success := false, sourceVersion := errorPathInfo.source,
        targetVersion := errorPathInfo.target, migrationsApplied := [],
        errors := [{ phase := Phase.migration, message := msg, recoverable := false }],
        warnings := [], duration := 0 }
  let (cleanupEvs, logs) := runCleanup cfg env st
  { result := result, trace := tr ++ cleanupEvs, finalManifest := fm,
    cleanupLogs := logs }

-- ## The text report (generateTextReport of src/index.ts)

/-- JS `String.prototype.padEnd`. -/
def jsPadEnd (s : String) (n : Nat) : String :=
  s ++ String.mk (List.replicate (n - s.length) ' ')

/-- The local `fmt`: `(ms / 1000).toFixed(1)` followed by `s`. -/
def fmtSeconds (ms : Nat) : String :=
  let tenths := (ms + 50) / 100
  toString (tenths / 10) ++ "." ++ toString (tenths % 10) ++ "s"

/-- The status tag printed for one script line. -/
def scriptStatusTag : ScriptStatus → String
  | ScriptStatus.applied => "[OK]  "
  | ScriptStatus.skipped => "[SKIP]"
  | ScriptStatus.failed => "[FAIL]"

/-- The phase name as printed in an error line. -/
def phaseName : Phase → String
  | Phase.extraction => "extraction"
  | Phase.database => "database"
  | Phase.migration => "migration"
  | Phase.«export» => "export"

/-- The lines `generateTextReport` pushes, in order (the source joins them
 with a newline). The date is passed in instead of read from the clock;
 `toLocaleString` on the partner count is modelled as plain `toString`. -/
def generateTextReportLines (result : MigrationResult) (pathInfo : PathInfo)
    (dateStr : String) : List String :=
  let header :=
    ["=== Odoo Migration Report ===",
     "Odoo Backup Migration Tool by Arbore, Sweden — https://www.arbore.se",
     "Date: " ++ dateStr,
     "Source: " ++ pathInfo.source ++ " → Target: " ++ pathInfo.target,
     "Status: " ++ (if result.success then "Success" else "Failed"),
     "Duration: " ++ fmtSeconds result.duration,
     ""]
  let reportLines :=
    match result.report with
    | some rep =>
      let pt := rep.phaseTimings
      let s := rep.stats
      let sr := rep.scriptResults
      let applied := (sr.filter (fun x => x.status == ScriptStatus.applied)).length
      ["--- Phase Timing ---",
       "Extraction:     " ++ fmtSeconds pt.extraction,
       "Database Setup: " ++ fmtSeconds pt.database,
       "Migration:      " ++ fmtSeconds pt.migration,
       "Export:         " ++ fmtSeconds pt.«export»,
       "",
       "--- Database Statistics ---",
       "Tables: " ++ toString s.tableCount,
       "Modules: " ++ toString s.moduleCount ++ " (" ++ toString s.installedModuleCount ++ " installed)",
       "Partners: " ++ toString s.partnerCount,
       "Users: " ++ toString s.userCount,
       "",
       "--- Migration Scripts (" ++ toString applied ++ "/" ++ toString sr.length ++ ") ---"] ++
      (sr.flatMap (fun script =>
        [scriptStatusTag script.status ++ " " ++ jsPadEnd script.id 35 ++ " " ++
         jsPadEnd script.name 40 ++ " " ++ fmtSeconds script.durationMs] ++
        (match script.error with
         | some e => ["       Error: " ++ e]
         | none => []))) ++
      [""] ++
      (if rep.importWarnings.length > 0 then
        ["--- Import Warnings (" ++ toString rep.importWarnings.length ++ ") ---"] ++
        rep.importWarnings.map (fun w => "- " ++ w) ++ [""]
       else [])
    | none => []
  let warningLines :=
    if result.warnings.length > 0 then
      ["--- Warnings (" ++ toString result.warnings.length ++ ") ---"] ++
      result.warnings.map (fun w => "- " ++ w) ++ [""]
    else []
  let errorLines :=
    if result.errors.length > 0 then
      ["--- Errors (" ++ toString result.errors.length ++ ") ---"] ++
      result.errors.map (fun e => "- [" ++ phaseName e.phase ++ "] " ++ e.message) ++ [""]
    else []
  header ++ reportLines ++ warningLines ++ errorLines

/-- `generateTextReport` of src/index.ts. -/
def generateTextReport (result : MigrationResult) (pathInfo : PathInfo)
    (dateStr : String) : String :=
  String.intercalate "\n" (generateTextReportLines result pathInfo dateStr)


-- ## Concrete environments used by the claim theorems

/-- A fully healthy 16.x database: all required tables present, marker `16.0`,
 every script query succeeds, post-migration marker already updated. -/
def dbEnvAllOk : DbEnv :=
  { tables := getRequiredTables, marker := some "16.0", postMarker := some "17.0" }

/-- A database whose version marker reads `17.0` (all else healthy), run
 against the 16-to-17 path. -/
def dbEnvMarker17 : DbEnv :=
  { tables := getRequiredTables, marker := some "17.0", postMarker := some "17.0" }

/-- A healthy 16.x database where the pre-check of script
 `mod-001-module-dependencies` evaluates to false. -/
def dbEnvPreCheckFalse : DbEnv :=
  { tables := getRequiredTables, marker := some "16.0", postMarker := some "17.0",
    scriptEnv := fun id =>
      if id == "mod-001-module-dependencies" then { preCheckRow := some false } else {} }

/-- A database missing two of the five mandatory tables
 (`ir_module_module` and `res_users`). -/
def dbEnvTwoMissing : DbEnv :=
  { tables := ["res_partner", "res_company", "ir_config_parameter"],
    marker := some "16.0" }

/-- The configuration of the concrete full-run scenario: auto-detected path,
 scratch files not kept. -/
def cfgFullRun : MigrationConfig := { outputPath := "out.zip" }

/-- The environment of the concrete full-run scenario: a valid archive whose
 manifest declares version `16.0`, a healthy database, every operation
 succeeding. -/
def envFullRun : PipelineEnv :=
  { manifest := { db_name := "proddb", version := "16.0" },
    db := dbEnvAllOk, now := "2026-01-01T00:00:00.000Z" }

/-- A pipeline environment where extraction fails (invalid archive). -/
def envExtractFail : PipelineEnv := { extractOk := false }

-- ## Helper lemmas

/-- A string starting with `17.` cannot also start with `16.`. -/
theorem jsStartsWith_17_not_16 (v : String) :
    jsStartsWith v "17." = true → jsStartsWith v "16." = false := by
  intro h
  unfold jsStartsWith at h ⊢
  rw [List.isPrefixOf_iff_prefix] at h
  by_contra hc
  rw [Bool.not_eq_false, List.isPrefixOf_iff_prefix] at hc
  obtain ⟨t1, h1⟩ := h
  obtain ⟨t2, h2⟩ := hc
  rw [← h1] at h2
  simp at h2

-- ## Claim theorems

/-- C7: `detectMigrationPath` maps a `16.`-prefixed marker value to the
 16-to-17 path and a `17.`-prefixed value to the 17-to-18 path, and returns no
 path when the marker row is absent, the marker query fails, or the prefix is
 unrecognized; being a total function of the query outcome, it never throws. -/
theorem detectMigrationPath_spec (db : DbEnv) :
    (db.markerQueryOk = false → detectMigrationPath db = none)
    ∧ (db.marker = none → detectMigrationPath db = none)
    ∧ (∀ v, db.marker = some v → db.markerQueryOk = true →
        ((jsStartsWith v "16." = true →
            detectMigrationPath db = some MigrationPath.p16to17)
         ∧ (jsStartsWith v "17." = true →
            detectMigrationPath db = some MigrationPath.p17to18)
         ∧ (jsStartsWith v "16." = false → jsStartsWith v "17." = false →
            detectMigrationPath db = none))) := by
  refine ⟨?_, ?_, ?_⟩
  · intro h
    simp [detectMigrationPath, h]
  · intro h
    unfold detectMigrationPath
    rw [h]
    split <;> rfl
  · intro v hv hq
    refine ⟨?_, ?_, ?_⟩
    · intro h16
      simp [detectMigrationPath, hq, hv, h16]
    · intro h17
      have h16 := jsStartsWith_17_not_16 v h17
      simp [detectMigrationPath, hq, hv, h16, h17]
    · intro h16 h17
      simp [detectMigrationPath, hq, hv, h16, h17]

/-- Witness for C7: evaluated at markers `16.0`, `17.2`, an absent marker and
 the unrecognized prefix `15.0`. -/
theorem detectMigrationPath_spec_witness :
    detectMigrationPath { marker := some "16.0" } = some MigrationPath.p16to17
    ∧ detectMigrationPath { marker := some "17.2" } = some MigrationPath.p17to18
    ∧ detectMigrationPath { marker := none } = none
    ∧ detectMigrationPath { marker := some "15.0" } = none := by
  refine ⟨?_, ?_, ?_, ?_⟩
  · exact ((detectMigrationPath_spec { marker := some "16.0" }).2.2 "16.0" rfl rfl).1
      (by decide)
  · exact ((detectMigrationPath_spec { marker := some "17.2" }).2.2 "17.2" rfl rfl).2.1
      (by decide)
  · exact (detectMigrationPath_spec { marker := none }).2.1 rfl
  · exact ((detectMigrationPath_spec { marker := some "15.0" }).2.2 "15.0" rfl rfl).2.2
      (by decide) (by decide)

/-- C2 (evidence of the code bug): with the 16-to-17 path selected, all
 mandatory tables present and the database version marker reading `17.0`,
 `runMigration` does not abort: pre-validation records no error (the thrown
 version-mismatch `Error` is swallowed by the enclosing catch inside
 `validatePreMigration`), all 14 scripts are executed and committed, and the
 run returns success — the database is mutated. -/
theorem runMigration_marker_mismatch_proceeds :
    (runMigration dbEnvMarker17 (some MigrationPath.p16to17)).1.success = true
    ∧ (runMigration dbEnvMarker17 (some MigrationPath.p16to17)).1.errors = []
    ∧ (runMigration dbEnvMarker17 (some MigrationPath.p16to17)).1.migrationsApplied.length = 14
    ∧ (runMigration dbEnvMarker17 (some MigrationPath.p16to17)).2.contains
        (DbEvent.commitTx "version-001-mark-17") = true := by
  refine ⟨by decide, by decide, by decide, by decide⟩

/-- C3 (counterexample): the full 16-to-17 catalog holds 14 scripts, not 15. -/
theorem migration_scripts_length_not_fifteen :
    MIGRATION_SCRIPTS.length = 14 ∧ ¬(MIGRATION_SCRIPTS.length = 15) := by
  refine ⟨by decide, by decide⟩

/-- C3 (amended): in the concrete full-run scenario — manifest version `16.0`,
 auto-detected 16-to-17 path, every operation succeeding — the run succeeds,
 the output manifest declares version `17.0`, `migrationsApplied` has the full
 catalog size, which is 14, and the generated text report contains a
 `Status: Success` line. -/
theorem full_run_16_to_17_scenario :
    (migrate cfgFullRun envFullRun).result.success = true
    ∧ (migrate cfgFullRun envFullRun).result.migrationsApplied.length
        = MIGRATION_SCRIPTS.length
    ∧ MIGRATION_SCRIPTS.length = 14
    ∧ ((migrate cfgFullRun envFullRun).finalManifest.map OdooManifest.version)
        = some "17.0"
    ∧ "Status: Success" ∈ generateTextReportLines
        (migrate cfgFullRun envFullRun).result
        (getMigrationPathInfo MigrationPath.p16to17) "2026-01-01 00:00" := by
  refine ⟨by decide, by decide, by decide, by decide, by decide⟩

/-- C4 (evidence of the code bug): when the pre-check of
 `mod-001-module-dependencies` evaluates to false, the script's transaction is
 rolled back and its main statement is never executed, but `runMigration`
 records its id in `migrationsApplied` and records no skip warning: the
 returned `ScriptExecutionResult` object is truthy in the `if (applied)` test
 regardless of its `applied` field. -/
theorem skipped_script_recorded_as_applied :
    (runMigration dbEnvPreCheckFalse (some MigrationPath.p16to17)).1.migrationsApplied.contains
        "mod-001-module-dependencies" = true
    ∧ ¬("Skipped: mod-001-module-dependencies (pre-check false)"
        ∈ (runMigration dbEnvPreCheckFalse (some MigrationPath.p16to17)).1.warnings)
    ∧ (runMigration dbEnvPreCheckFalse (some MigrationPath.p16to17)).2.contains
        (DbEvent.execSql "mod-001-module-dependencies") = false
    ∧ (runMigration dbEnvPreCheckFalse (some MigrationPath.p16to17)).2.contains
        (DbEvent.rollbackTx "mod-001-module-dependencies") = true := by
  refine ⟨by decide, by decide, by decide, by decide⟩

/-- C5 (counterexample): with `ir_module_module` and `res_users` both missing,
 pre-validation records two separate errors — one per missing table — not one
 combined error; no script transaction is started. -/
theorem missing_tables_two_errors_not_one :
    (runMigration dbEnvTwoMissing (some MigrationPath.p16to17)).1.errors.length = 2
    ∧ ¬((runMigration dbEnvTwoMissing (some MigrationPath.p16to17)).1.errors.length = 1)
    ∧ (runMigration dbEnvTwoMissing (some MigrationPath.p16to17)).1.errors.map
        MigrationError.message
        = ["Required table missing: ir_module_module",
           "Required table missing: res_users"]
    ∧ (runMigration dbEnvTwoMissing (some MigrationPath.p16to17)).1.migrationsApplied = []
    ∧ (runMigration dbEnvTwoMissing (some MigrationPath.p16to17)).2 = [] := by
  refine ⟨by decide, by decide, by decide, by decide, by decide⟩

/-- C6 (counterexample): an extraction-phase failure is captured with phase
 `migration`, not phase `extraction` — the coordinator's catch block tags
 every caught error with `phase: 'migration'`. -/
theorem extraction_error_not_tagged_extraction :
    (migrate cfgFullRun envExtractFail).result.errors.map MigrationError.phase
        = [Phase.migration]
    ∧ (migrate cfgFullRun envExtractFail).result.success = false
    ∧ ¬(Phase.migration = Phase.extraction) := by
  refine ⟨by decide, by decide, by decide⟩

/-- C9 (counterexample): a running instance that is stopped can be brought
 straight back to Running by calling `start()` again — `start` only rejects
 uninitialized instances, and `stop` leaves `initialized` set. -/
theorem stopped_instance_restarts :
    EmbeddedPostgres.stop {} { initialized := true, running := true }
        = { initialized := true, running := false }
    ∧ EmbeddedPostgres.start {} { initialized := true, running := false }
        = Except.ok { initialized := true, running := true }
    ∧ EmbeddedPostgres.isRunning { initialized := true, running := true } = true := by
  refine ⟨rfl, rfl, rfl⟩

/-- C9 (amended): for every initialized instance, stopping it and then calling
 `start()` again (with the external commands succeeding) returns the same
 instance to the Running state: the `Running → Stopped` transition is not
 one-directional in the code, which only refuses uninitialized instances. -/
theorem start_after_stop_restarts (s : PgState) (senv : StopEnv) (env : StartEnv)
    (hinit : s.initialized = true) (hstart : env.pgCtlStartOk = true)
    (hready : env.readyOk = true) :
    EmbeddedPostgres.start env (EmbeddedPostgres.stop senv s)
      = Except.ok { initialized := true, running := true } := by
  obtain ⟨i, r⟩ := s
  subst hinit
  cases r <;>
    simp [EmbeddedPostgres.stop, EmbeddedPostgres.start, hstart, hready]

/-- Witness for C9 (amended), at the concrete Running instance. -/
theorem start_after_stop_restarts_witness :
    EmbeddedPostgres.start {} (EmbeddedPostgres.stop {} { initialized := true, running := true })
      = Except.ok { initialized := true, running := true } :=
  start_after_stop_restarts { initialized := true, running := true } {} {} rfl rfl rfl

/-- C10: `updateManifest` rewrites the manifest to the old manifest overridden
 by the fields present in the patch, except that `timestamp` is always
 overwritten with the current time — even when the patch carries a timestamp
 or none at all; every field absent from the patch (other than timestamp)
 keeps its previous value. -/
theorem updateManifest_frame (m : OdooManifest) (p : ManifestPatch) (now : String) :
    (updateManifest m p now).timestamp = some now
    ∧ (p.db_name = none → (updateManifest m p now).db_name = m.db_name)
    ∧ (∀ v, p.db_name = some v → (updateManifest m p now).db_name = v)
    ∧ (p.version = none → (updateManifest m p now).version = m.version)
    ∧ (∀ v, p.version = some v → (updateManifest m p now).version = v)
    ∧ (p.modules = none → (updateManifest m p now).modules = m.modules)
    ∧ (∀ v, p.modules = some v → (updateManifest m p now).modules = some v)
    ∧ (∀ t, p.timestamp = some t → (updateManifest m p now).timestamp = some now) := by
  refine ⟨rfl, ?_, ?_, ?_, ?_, ?_, ?_, fun t _ => rfl⟩
  · intro h; simp [updateManifest, h]
  · intro v h; simp [updateManifest, h]
  · intro h; simp [updateManifest, h]
  · intro v h; simp [updateManifest, h]
  · intro h; simp [updateManifest, h]
  · intro v h; simp [updateManifest, h]

/-- Witness for C10: the patch `migrate` itself uses — new version `17.0`,
 original database name, no timestamp — applied to a concrete manifest. -/
theorem updateManifest_frame_witness :
    (updateManifest { db_name := "proddb", version := "16.0" }
        { db_name := some "proddb", version := some "17.0" } "2026-01-01").timestamp
      = some "2026-01-01"
    ∧ (updateManifest { db_name := "proddb", version := "16.0" }
        { db_name := some "proddb", version := some "17.0" } "2026-01-01").modules
      = ({ db_name := "proddb", version := "16.0" : OdooManifest }).modules
    ∧ (updateManifest { db_name := "proddb", version := "16.0" }
        { db_name := some "proddb", version := some "17.0" } "2026-01-01").version
      = "17.0" :=
  ⟨(updateManifest_frame { db_name := "proddb", version := "16.0" }
      { db_name := some "proddb", version := some "17.0" } "2026-01-01").1,
   (updateManifest_frame { db_name := "proddb", version := "16.0" }
      { db_name := some "proddb", version := some "17.0" } "2026-01-01").2.2.2.2.2.1 rfl,
   (updateManifest_frame { db_name := "proddb", version := "16.0" }
      { db_name := some "proddb", version := some "17.0" } "2026-01-01").2.2.2.2.1 "17.0" rfl⟩


/-- `beginsOf` distributes over trace concatenation. -/
theorem beginsOf_append (a b : List DbEvent) :
    beginsOf (a ++ b) = beginsOf a ++ beginsOf b := by
  unfold beginsOf
  exact List.filterMap_append a b _

/-- One `executeMigrationScript` call opens exactly one transaction, first. -/
theorem beginsOf_exec (se : ScriptEnv) (s : MigrationScript) :
    beginsOf (executeMigrationScript se s).2 = [s.id] := by
  unfold executeMigrationScript
  cases hpc : s.preCheck <;>
  cases hpo : s.postCheck <;>
  cases hsql : se.sqlOk <;>
  cases hrow : se.preCheckRow.getD true <;>
  cases hval : se.postCheckRow.getD true <;>
  simp [beginsOf, hpc, hpo, hsql, hrow, hval]

/-- The script loop opens transactions along a prefix of the given list: in
 list order, one at a time, stopping early only on a fatal script error. -/
theorem runScripts_beginsOf_prefix (se : String → ScriptEnv) (l : List MigrationScript) :
    beginsOf (runScripts se l).2.2.2 <+: l.map MigrationScript.id := by
  induction l with
  | nil => simp [runScripts, beginsOf]
  | cons s rest ih =>
    unfold runScripts
    rcases hE : executeMigrationScript (se s.id) s with ⟨res, ev⟩
    have hb : beginsOf ev = [s.id] := by
      have h := beginsOf_exec (se s.id) s
      rw [hE] at h
      exact h
    cases res with
    | ok r =>
      simp only [hE, jsTruthy, if_true]
      rcases hR : runScripts se rest with ⟨ids, ws, fatal, evs⟩
      simp only [beginsOf_append, hb]
      have ih2 : beginsOf evs <+: rest.map MigrationScript.id := by
        have h := ih
        rw [hR] at h
        exact h
      obtain ⟨t, ht⟩ := ih2
      exact ⟨t, by simp [List.map_cons, ht]⟩
    | error msg =>
      simp only [hE]
      simp [hb, List.map_cons]


/-- Stability of the modelled sort: the scripts holding any one order key
 come out in exactly their declaration order. -/
theorem insertionSort_filter_byOrder (l : List MigrationScript) (k : Nat) :
    (l.insertionSort byOrder).filter (fun s => s.order = k)
      = l.filter (fun s => s.order = k) := by
  have hperm : ((l.insertionSort byOrder).filter (fun s => decide (s.order = k))).Perm
      (l.filter (fun s => decide (s.order = k))) :=
    (List.perm_insertionSort byOrder l).filter _
  have hpw : (l.filter (fun s => decide (s.order = k))).Pairwise byOrder := by
    have hall : ∀ x ∈ l.filter (fun s => decide (s.order = k)), x.order = k := by
      intro x hx
      simpa using List.of_mem_filter hx
    apply List.pairwise_of_forall_mem_list
    intro a ha b hb
    unfold byOrder
    rw [hall a ha, hall b hb]
  have hsub : List.Sublist (l.filter (fun s => decide (s.order = k)))
      (l.insertionSort byOrder) :=
    List.sublist_insertionSort hpw (List.filter_sublist l)
  have hsub2 : List.Sublist (l.filter (fun s => decide (s.order = k)))
      ((l.insertionSort byOrder).filter (fun s => decide (s.order = k))) := by
    have h3 := hsub.filter (fun s => decide (s.order = k))
    rwa [List.filter_filter,
      show ((fun s => decide (s.order = k) && decide (s.order = k)) : MigrationScript → Bool)
          = fun s => decide (s.order = k) from by
        funext s; cases h : decide (s.order = k) <;> simp [h]] at h3
  exact (hsub2.eq_of_length hperm.length_eq.symm).symm

/-- `runMigration` opens script transactions along a prefix of the path's
 ordered script list. -/
theorem runMigration_trace_prefix (db : DbEnv) (p : MigrationPath) :
    beginsOf (runMigration db (some p)).2 <+: ((MIGRATION_PATHS p).scripts.map MigrationScript.id) := by
  unfold runMigration
  dsimp only
  rcases hV : validatePreMigration db (MIGRATION_PATHS p) with ⟨valErrors, valWarnings⟩
  simp only [hV]
  split
  · simp [beginsOf]
  · rcases hR : runScripts db.scriptEnv (MIGRATION_PATHS p).scripts with ⟨ids, ws, fatal, evs⟩
    simp only [hR]
    have hp := runScripts_beginsOf_prefix db.scriptEnv (MIGRATION_PATHS p).scripts
    rw [hR] at hp
    cases fatal <;> simpa using hp

/-- C8: `getMigrationScripts` returns the catalog sorted ascending by the
 integer order key, as a permutation of the catalog, with scripts sharing an
 order key kept in declaration order (stable sort); `runMigration` executes
 scripts one at a time in exactly that sequence — its transaction trace is a
 prefix of the sorted id list, and equals it on the all-healthy database. -/
theorem migration_scripts_sorted_stable_run_order :
    List.Sorted byOrder getMigrationScripts
    ∧ getMigrationScripts.Perm MIGRATION_SCRIPTS
    ∧ (∀ k, getMigrationScripts.filter (fun s => s.order = k)
        = MIGRATION_SCRIPTS.filter (fun s => s.order = k))
    ∧ (∀ db p, beginsOf (runMigration db (some p)).2
        <+: ((MIGRATION_PATHS p).scripts.map MigrationScript.id))
    ∧ beginsOf (runMigration dbEnvAllOk (some MigrationPath.p16to17)).2
        = getMigrationScripts.map MigrationScript.id := by
  refine ⟨List.sorted_insertionSort byOrder MIGRATION_SCRIPTS,
    List.perm_insertionSort byOrder MIGRATION_SCRIPTS,
    fun k => insertionSort_filter_byOrder MIGRATION_SCRIPTS k,
    fun db p => runMigration_trace_prefix db p,
    by decide⟩


/-- Every error pre-validation records carries phase `migration`. -/
theorem validatePreMigration_error_phase (db : DbEnv) (config : MigrationPathConfig) :
    ∀ e ∈ (validatePreMigration db config).1, e.phase = Phase.migration := by
  intro e he
  unfold validatePreMigration at he
  simp only [List.mem_map] at he
  obtain ⟨t, _, rfl⟩ := he
  rfl

/-- A fatal script error recorded by the loop carries phase `migration`. -/
theorem runScripts_fatal_phase (se : String → ScriptEnv) (l : List MigrationScript) :
    ∀ e, (runScripts se l).2.2.1 = some e → e.phase = Phase.migration := by
  induction l with
  | nil => intro e he; simp [runScripts] at he
  | cons s rest ih =>
    intro e he
    unfold runScripts at he
    rcases hE : executeMigrationScript (se s.id) s with ⟨res, ev⟩
    rw [hE] at he
    cases res with
    | ok r =>
      simp only [jsTruthy, if_true] at he
      rcases hR : runScripts se rest with ⟨ids, ws, fatal, evs⟩
      rw [hR] at he
      simp at he
      apply ih
      rw [hR]
      simpa using he
    | error msg =>
      simp at he
      rw [← he]

/-- Every error in an orchestrator result (explicit path) carries phase
 `migration`. -/
theorem runMigration_some_error_phase (db : DbEnv) (path : MigrationPath) :
    ∀ e ∈ (runMigration db (some path)).1.errors, e.phase = Phase.migration := by
  intro e he
  unfold runMigration at he
  dsimp only at he
  rcases hV : validatePreMigration db (MIGRATION_PATHS path) with ⟨valErrors, valWarnings⟩
  rw [hV] at he
  have hval : ∀ x ∈ valErrors, x.phase = Phase.migration := by
    intro x hx
    apply validatePreMigration_error_phase db (MIGRATION_PATHS path)
    rw [hV]
    exact hx
  split at he
  · exact hval e he
  · rcases hR : runScripts db.scriptEnv (MIGRATION_PATHS path).scripts with ⟨ids, ws, fatal, evs⟩
    rw [hR] at he
    split at he
    next e2 heq =>
      simp at he
      rcases he with he | he
      · exact hval e he
      · subst he
        apply runScripts_fatal_phase db.scriptEnv (MIGRATION_PATHS path).scripts
        rw [hR]
        simpa using heq
    next heq =>
      simp at he
      exact hval e he

/-- With no explicit path and a successful detection, `runMigration` behaves
 as if the detected path had been passed. -/
theorem runMigration_none_eq (db : DbEnv) (q : MigrationPath)
    (h : detectMigrationPath db = some q) :
    runMigration db none = runMigration db (some q) := by
  unfold runMigration
  rw [h]

/-- Every error in any orchestrator result carries phase `migration`. -/
theorem runMigration_error_phase (db : DbEnv) (p : Option MigrationPath) :
    ∀ e ∈ (runMigration db p).1.errors, e.phase = Phase.migration := by
  cases p with
  | some path => exact runMigration_some_error_phase db path
  | none =>
    cases hdet : detectMigrationPath db with
    | some q =>
      rw [runMigration_none_eq db q hdet]
      exact runMigration_some_error_phase db q
    | none =>
      intro e he
      unfold runMigration at he
      rw [hdet] at he
      simp at he
      rw [he]


/-- An orchestrator run (explicit path) succeeds exactly when its error list
 is empty. -/
theorem runMigration_some_success_iff (db : DbEnv) (path : MigrationPath) :
    (runMigration db (some path)).1.success = true
      ↔ (runMigration db (some path)).1.errors = [] := by
  unfold runMigration
  dsimp only
  rcases hV : validatePreMigration db (MIGRATION_PATHS path) with ⟨valErrors, valWarnings⟩
  simp only [hV]
  split
  next hcond =>
    dsimp only
    constructor
    · intro hfalse; exact absurd hfalse (by simp)
    · intro hnil
      rw [hnil] at hcond
      simp at hcond
  next hcond =>
    rcases hR : runScripts db.scriptEnv (MIGRATION_PATHS path).scripts with ⟨ids, ws, fatal, evs⟩
    simp only [hR]
    split
    · simp
    · simp [List.isEmpty_iff]

/-- An orchestrator run succeeds exactly when its error list is empty. -/
theorem runMigration_success_iff (db : DbEnv) (p : Option MigrationPath) :
    (runMigration db p).1.success = true ↔ (runMigration db p).1.errors = [] := by
  cases p with
  | some path => exact runMigration_some_success_iff db path
  | none =>
    cases hdet : detectMigrationPath db with
    | some q =>
      rw [runMigration_none_eq db q hdet]
      exact runMigration_some_success_iff db q
    | none =>
      unfold runMigration
      rw [hdet]
      simp


/-- `buildSuccessResult` only touches `duration` and `report`: the success
 flag, error list and applied-script list pass through unchanged. -/
theorem buildSuccessResult_fields (cfg : MigrationConfig) (env : PipelineEnv)
    (m : MigrationResult) :
    (buildSuccessResult cfg env m).errors = m.errors
    ∧ (buildSuccessResult cfg env m).success = m.success
    ∧ (buildSuccessResult cfg env m).migrationsApplied = m.migrationsApplied := by
  unfold buildSuccessResult
  exact ⟨rfl, rfl, rfl⟩

/-- Any result the `try` block returns (rather than throws) has all its
 errors tagged `migration` and fails exactly when errors are present. -/
theorem migrateBody_ok_result (cfg : MigrationConfig) (env : PipelineEnv)
    (r : MigrationResult) (h : (migrateBody cfg env).1 = Except.ok r) :
    (∀ e ∈ r.errors, e.phase = Phase.migration)
    ∧ (r.success = true ↔ r.errors = []) := by
  unfold migrateBody at h
  dsimp only at h
  cases hc1 : env.createTempDirOk <;>
    simp only [hc1, Bool.not_false, Bool.not_true, eq_self_iff_true, Bool.false_eq_true, Bool.true_eq_false, if_true, if_false, ite_true, ite_false] at h
  · exact Except.noConfusion h
  cases hc2 : env.extractOk <;>
    simp only [hc2, Bool.not_false, Bool.not_true, eq_self_iff_true, Bool.false_eq_true, Bool.true_eq_false, if_true, if_false, ite_true, ite_false] at h
  · exact Except.noConfusion h
  cases hp : resolveMigrationPath cfg env.manifest.version <;> simp only [hp] at h
  · exact Except.noConfusion h
  next mp =>
  cases hvm : jsStartsWith env.manifest.version
      (jsSplitHead (getMigrationPathInfo mp).source "." ++ ".") <;>
    simp only [hvm, Bool.not_false, Bool.not_true, eq_self_iff_true, Bool.false_eq_true, Bool.true_eq_false, if_true, if_false, ite_true, ite_false] at h
  · exact Except.noConfusion h
  cases hc3 : env.createDbOk <;>
    simp only [hc3, Bool.not_false, Bool.not_true, eq_self_iff_true, Bool.false_eq_true, Bool.true_eq_false, if_true, if_false, ite_true, ite_false] at h
  · exact Except.noConfusion h
  cases hc4 : env.verifyConnOk <;>
    simp only [hc4, Bool.not_false, Bool.not_true, eq_self_iff_true, Bool.false_eq_true, Bool.true_eq_false, if_true, if_false, ite_true, ite_false] at h
  · exact Except.noConfusion h
  cases hc5 : env.loadDumpOk <;>
    simp only [hc5, Bool.not_false, Bool.not_true, eq_self_iff_true, Bool.false_eq_true, Bool.true_eq_false, if_true, if_false, ite_true, ite_false] at h
  · exact Except.noConfusion h
  cases hms : (runMigration env.db (some mp)).1.success <;>
    simp only [hms, Bool.not_false, Bool.not_true, eq_self_iff_true, Bool.false_eq_true, Bool.true_eq_false, if_true, if_false, ite_true, ite_false] at h
  · simp only [Except.ok.injEq] at h
    rw [← h]
    exact ⟨fun e he => runMigration_error_phase _ _ e he, runMigration_success_iff _ _⟩
  cases hc6 : env.poolEndPhase4Ok <;>
    simp only [hc6, Bool.not_false, Bool.not_true, eq_self_iff_true, Bool.false_eq_true, Bool.true_eq_false, if_true, if_false, ite_true, ite_false] at h
  · exact Except.noConfusion h
  cases hc7 : env.exportOk <;>
    simp only [hc7, Bool.not_false, Bool.not_true, eq_self_iff_true, Bool.false_eq_true, Bool.true_eq_false, if_true, if_false, ite_true, ite_false] at h
  · exact Except.noConfusion h
  cases hc8 : env.updateManifestOk <;>
    simp only [hc8, Bool.not_false, Bool.not_true, eq_self_iff_true, Bool.false_eq_true, Bool.true_eq_false, if_true, if_false, ite_true, ite_false] at h
  · exact Except.noConfusion h
  cases hc9 : env.packOk <;>
    simp only [hc9, Bool.not_false, Bool.not_true, eq_self_iff_true, Bool.false_eq_true, Bool.true_eq_false, if_true, if_false, ite_true, ite_false] at h
  · exact Except.noConfusion h
  simp only [Except.ok.injEq] at h
  rw [← h]
  refine ⟨?_, ?_⟩
  · rw [(buildSuccessResult_fields cfg env _).1]
    exact fun e he => runMigration_error_phase _ _ e he
  · rw [(buildSuccessResult_fields cfg env _).2.1,
      (buildSuccessResult_fields cfg env _).1]
    exact runMigration_success_iff _ _

/-- The body emits no cleanup events, creates each resource at most once, and
 its exit state records exactly which resources are still held. -/
theorem migrateBody_counts (cfg : MigrationConfig) (env : PipelineEnv) :
    ((migrateBody cfg env).2.2.1.count Event.cleanupEnter = 0)
    ∧ ((migrateBody cfg env).2.2.1.count Event.poolEndCleanup = 0)
    ∧ ((migrateBody cfg env).2.2.1.count Event.dropDb = 0)
    ∧ ((migrateBody cfg env).2.2.1.count Event.removeTempDir = 0)
    ∧ ((migrateBody cfg env).2.2.1.count Event.dbCreated
        = (if (migrateBody cfg env).2.1.dbCreated then 1 else 0))
    ∧ ((migrateBody cfg env).2.2.1.count Event.tempDirCreated
        = (if (migrateBody cfg env).2.1.tempDirCreated then 1 else 0))
    ∧ ((migrateBody cfg env).2.2.1.count Event.poolCreated
        = (if (migrateBody cfg env).2.1.dbCreated then 1 else 0))
    ∧ ((migrateBody cfg env).2.2.1.count Event.poolEndBodyOk
         + (if (migrateBody cfg env).2.1.poolOpen then 1 else 0)
        = (if (migrateBody cfg env).2.1.dbCreated then 1 else 0)) := by
  unfold migrateBody
  dsimp only
  cases hc1 : env.createTempDirOk <;> try simp only [hc1, Bool.not_false, Bool.not_true, eq_self_iff_true, Bool.false_eq_true, Bool.true_eq_false, if_true, if_false, ite_true, ite_false]
  all_goals try dsimp only
  all_goals try decide
  cases hc2 : env.extractOk <;> try simp only [hc2, Bool.not_false, Bool.not_true, eq_self_iff_true, Bool.false_eq_true, Bool.true_eq_false, if_true, if_false, ite_true, ite_false]
  all_goals try dsimp only
  all_goals try decide
  rcases hp : resolveMigrationPath cfg env.manifest.version with msg | mp <;>
    try simp only [hp]
  all_goals try dsimp only
  all_goals try decide
  rcases Bool.eq_false_or_eq_true (jsStartsWith env.manifest.version
      (jsSplitHead (getMigrationPathInfo mp).source "." ++ ".")) with hvm | hvm <;>
    try simp only [hvm, Bool.not_false, Bool.not_true, eq_self_iff_true, Bool.false_eq_true, Bool.true_eq_false, if_true, if_false, ite_true, ite_false]
  all_goals try dsimp only
  all_goals try decide
  cases hc3 : env.createDbOk <;> try simp only [hc3, Bool.not_false, Bool.not_true, eq_self_iff_true, Bool.false_eq_true, Bool.true_eq_false, if_true, if_false, ite_true, ite_false]
  all_goals try dsimp only
  all_goals try decide
  cases hc4 : env.verifyConnOk <;> try simp only [hc4, Bool.not_false, Bool.not_true, eq_self_iff_true, Bool.false_eq_true, Bool.true_eq_false, if_true, if_false, ite_true, ite_false]
  all_goals try dsimp only
  all_goals try decide
  cases hc5 : env.loadDumpOk <;> try simp only [hc5, Bool.not_false, Bool.not_true, eq_self_iff_true, Bool.false_eq_true, Bool.true_eq_false, if_true, if_false, ite_true, ite_false]
  all_goals try dsimp only
  all_goals try decide
  rcases Bool.eq_false_or_eq_true ((runMigration env.db (some mp)).1.success) with hms | hms <;>
    try simp only [hms, Bool.not_false, Bool.not_true, eq_self_iff_true, Bool.false_eq_true, Bool.true_eq_false, if_true, if_false, ite_true, ite_false]
  all_goals try dsimp only
  all_goals try decide
  cases hc6 : env.poolEndPhase4Ok <;> try simp only [hc6, Bool.not_false, Bool.not_true, eq_self_iff_true, Bool.false_eq_true, Bool.true_eq_false, if_true, if_false, ite_true, ite_false]
  all_goals try dsimp only
  all_goals try decide
  cases hc7 : env.exportOk <;> try simp only [hc7, Bool.not_false, Bool.not_true, eq_self_iff_true, Bool.false_eq_true, Bool.true_eq_false, if_true, if_false, ite_true, ite_false]
  all_goals try dsimp only
  all_goals try decide
  cases hc8 : env.updateManifestOk <;> try simp only [hc8, Bool.not_false, Bool.not_true, eq_self_iff_true, Bool.false_eq_true, Bool.true_eq_false, if_true, if_false, ite_true, ite_false]
  all_goals try dsimp only
  all_goals try decide
  cases hc9 : env.packOk <;> try simp only [hc9, Bool.not_false, Bool.not_true, eq_self_iff_true, Bool.false_eq_true, Bool.true_eq_false, if_true, if_false, ite_true, ite_false]
  all_goals try dsimp only
  all_goals decide

/-- The body never reads the teardown outcome flags. -/
theorem migrateBody_teardown_frame (cfg : MigrationConfig) (env : PipelineEnv)
    (b1 b2 b3 : Bool) :
    migrateBody cfg
        { env with poolEndCleanupOk := b1, dropDbOk := b2, removeTempDirOk := b3 }
      = migrateBody cfg env := by
  rcases env
  rfl

/-- C5 (amended): pre-validation records one error for every mandatory table
 missing for the selected path — all of them, not just the first — and when
 any table is missing the run fails with no script transaction started. -/
theorem preValidation_reports_every_missing_table (db : DbEnv) (path : MigrationPath)
    (hmiss : (MIGRATION_PATHS path).requiredTables.filter
        (fun t => !(tableExists db t)) ≠ []) :
    (runMigration db (some path)).1.errors
      = ((MIGRATION_PATHS path).requiredTables.filter (fun t => !(tableExists db t))).map
          (fun t => { phase := Phase.migration,
                      message := "Required table missing: " ++ t,
                      recoverable := false })
    ∧ (runMigration db (some path)).1.success = false
    ∧ (runMigration db (some path)).1.migrationsApplied = []
    ∧ (runMigration db (some path)).2 = [] := by
  unfold runMigration
  dsimp only
  rcases hV : validatePreMigration db (MIGRATION_PATHS path) with ⟨valErrors, valWarnings⟩
  have hE : valErrors
      = ((MIGRATION_PATHS path).requiredTables.filter (fun t => !(tableExists db t))).map
          (fun t => { phase := Phase.migration,
                      message := "Required table missing: " ++ t,
                      recoverable := false }) := by
    have h1 := congrArg Prod.fst hV
    simpa [validatePreMigration] using h1.symm
  have hne : valErrors.isEmpty = false := by
    rw [hE]
    rcases hm : (MIGRATION_PATHS path).requiredTables.filter (fun t => !(tableExists db t)) with
      _ | ⟨a, rest⟩
    · exact absurd hm hmiss
    · rfl
  simp only [hV, hne]
  simp [hE]

/-- Witness for C5 (amended), at the database missing `ir_module_module` and
 `res_users`. -/
theorem preValidation_reports_every_missing_table_witness :
    (runMigration dbEnvTwoMissing (some MigrationPath.p16to17)).1.success = false
    ∧ (runMigration dbEnvTwoMissing (some MigrationPath.p16to17)).1.migrationsApplied = [] :=
  ⟨(preValidation_reports_every_missing_table dbEnvTwoMissing MigrationPath.p16to17
      (by decide)).2.1,
   (preValidation_reports_every_missing_table dbEnvTwoMissing MigrationPath.p16to17
      (by decide)).2.2.1⟩

/-- C6 (amended): every error in `migrate`'s returned result — whichever of
 the four phases raised it — carries phase `migration` (the coordinator's
 catch block hard-codes that tag), and errors are exactly what makes a run
 fatal: the result reports failure precisely when its error list is
 non-empty. -/
theorem migrate_errors_tagged_migration (cfg : MigrationConfig) (env : PipelineEnv) :
    (∀ e ∈ (migrate cfg env).result.errors, e.phase = Phase.migration)
    ∧ ((migrate cfg env).result.success = true
        ↔ (migrate cfg env).result.errors = []) := by
  rcases hB : migrateBody cfg env with ⟨body, st, tr, fm⟩
  unfold migrate
  rw [hB]
  dsimp only
  cases body with
  | error msg =>
    dsimp only
    constructor
    · intro e he
      simp at he
      rw [he]
    · simp
  | ok r =>
    dsimp only
    exact migrateBody_ok_result cfg env r (by rw [hB])

/-- Witness for C6 (amended): the error produced by a failed extraction is
 tagged with phase `migration`. -/
theorem migrate_errors_tagged_migration_witness :
    ({ phase := Phase.migration, message := "Invalid backup ZIP",
       details := none, recoverable := false : MigrationError }).phase
      = Phase.migration :=
  (migrate_errors_tagged_migration cfgFullRun envExtractFail).1
    { phase := Phase.migration, message := "Invalid backup ZIP",
      details := none, recoverable := false }
    (by decide)

/-- C1: for every configuration and environment — whatever phase fails —
 `migrate` returns a structured result (it is a total function into
 `MigrateOutcome`), and the teardown region runs exactly once: one
 `cleanupEnter` event; `dropTempDatabase` exactly once when (and only when)
 the temporary database was created; the scratch directory removed exactly
 once unless `keepTemp`; the pool closed exactly once over the whole run; and
 teardown's own failures are logged, never raised — flipping the teardown
 outcome flags cannot change the returned result. -/
theorem migrate_teardown_exactly_once (cfg : MigrationConfig) (env : PipelineEnv)
    (b1 b2 b3 : Bool) :
    ((migrate cfg env).trace.count Event.cleanupEnter = 1)
    ∧ ((migrate cfg env).trace.count Event.dropDb
        = (migrate cfg env).trace.count Event.dbCreated)
    ∧ ((migrate cfg env).trace.count Event.removeTempDir
        = if cfg.keepTemp then 0 else (migrate cfg env).trace.count Event.tempDirCreated)
    ∧ ((migrate cfg env).trace.count Event.poolEndCleanup
         + (migrate cfg env).trace.count Event.poolEndBodyOk
        = (migrate cfg env).trace.count Event.poolCreated)
    ∧ ((migrate cfg { env with poolEndCleanupOk := b1, dropDbOk := b2, removeTempDirOk := b3 }).result = (migrate cfg env).result) := by
  have hC := migrateBody_counts cfg env
  have hFrame : (migrate cfg { env with poolEndCleanupOk := b1, dropDbOk := b2, removeTempDirOk := b3 }).result = (migrate cfg env).result := by
    unfold migrate
    rw [migrateBody_teardown_frame cfg env b1 b2 b3]
  refine ⟨?_, ?_, ?_, ?_, hFrame⟩ <;>
  · rcases hB : migrateBody cfg env with ⟨body, st, tr, fm⟩
    rw [hB] at hC
    dsimp only at hC
    obtain ⟨h1, h2, h3, h4, h5, h6, h7, h8⟩ := hC
    unfold migrate
    rw [hB]
    dsimp only
    unfold runCleanup
    rcases st with ⟨po, dc, tc⟩
    dsimp only at h5 h6 h7 h8 ⊢
    cases po <;> cases dc <;> cases tc <;> cases hk : cfg.keepTemp <;>
      (try simp only [Bool.false_eq_true, Bool.true_eq_false, eq_self_iff_true, ite_true, ite_false, if_true, if_false] at h5 h6 h7 h8) <;>
      (try simp [List.count_append, List.count_cons, List.count_nil,
        h1, h2, h3, h4, h5, h6, h7, h8, hk]) <;>
      omega

end OdooZip
